import Mathlib

/-!
Shallow embedding of the results-dashboard pipeline of the
Hybrid-ACO-PSO-Optimization repository (`app.py`, `plot_results.py`).

The repository reads a CSV of simulation results, coerces designated metric
columns to numeric (failure markers such as "FAILED" become missing values),
filters by a host-count selection, aggregates means per
(HostCount, Algorithm), pivots for plotting, and renders an executive
summary comparing the hybrid algorithm against the ACO baseline.

Two views of the data are embedded, mirroring how the two scripts use pandas:
a column-oriented table (`DF`) for the cleaning loop of `load_data` and of
`plot_results.__main__`, and a row-oriented table (`List Row`) for the
filtering / groupby / summary logic.
-/

/-- A cell of the raw table: a parsed number, a missing value (pandas NaN),
or an unparsed text such as the failure marker "FAILED". -/
inductive Cell where
  | num (q : ℚ)
  | na
  | text (s : String)
deriving DecidableEq, Repr

/-- Parse a run of decimal digits to a natural number; empty input fails. -/
def parseDigits (cs : List Char) : Option ℕ :=
  if cs.isEmpty then none
  else cs.foldl
    (fun acc c => acc.bind fun n =>
      if c.isDigit then some (10 * n + (c.toNat - 48)) else none)
    (some 0)

/-- Parse an unsigned decimal numeral, optionally with a fractional part. -/
def parseUnsigned (cs : List Char) : Option ℚ :=
  match cs.span (fun c => c ≠ Char.ofNat 46) with
  | (intPart, []) => (parseDigits intPart).map (fun n => (n : ℚ))
  | (intPart, _ :: fracPart) =>
    match parseDigits intPart, parseDigits fracPart with
    | some n, some f => some ((n : ℚ) + (f : ℚ) / (10 ^ fracPart.length))
    | _, _ => none

/-- Parse a (possibly negated) decimal numeral, the way `pd.to_numeric`
parses a metric cell; a non-numeric string such as "FAILED" fails. -/
def parseNum (s : String) : Option ℚ :=
  match s.data with
  | [] => none
  | c :: rest =>
    if c = Char.ofNat 45 then (parseUnsigned rest).map (fun q => -q)
    else parseUnsigned (c :: rest)

/-- One application of `pd.to_numeric(col, errors="coerce")` to a cell:
numbers and missing values pass through, text is parsed or coerced to
missing. -/
def toNumericCell : Cell → Cell
  | Cell.num q => Cell.num q
  | Cell.na => Cell.na
  | Cell.text s =>
    match parseNum s with
    | some q => Cell.num q
    | none => Cell.na

/-- Column-oriented dataframe: list of (column name, column cells). -/
abbrev DF : Type := List (String × List Cell)

/-- Look up a column by name (first match), as `df[col]` does. -/
def getCol : DF → String → Option (List Cell)
  | [], _ => none
  | (n, v) :: rest, name => if n = name then some v else getCol rest name

/-- One iteration of the cleaning loop: `if col in df.columns:
df[col] = pd.to_numeric(df[col], errors="coerce")` — every column with
that name is coerced, absent columns are skipped. -/
def cleanStep (df : DF) (col : String) : DF :=
  df.map (fun p => if p.1 = col then (p.1, p.2.map toNumericCell) else p)

/-- The `cols_to_clean` list of `app.py` (line 43). -/
def cols_to_clean : List String :=
  ["BestFitness", "Power", "Load", "Network", "Link"]

/-- The metric columns of `plot_results.py` (`metrics_to_plot`, lines 18-24),
the list its `__main__` cleaning loop iterates. -/
def metricCols : List String :=
  ["BestFitness", "Power", "Load", "Network", "Link"]

/-- The cleaning loop of `load_data` (app.py lines 43-46). -/
def cleanDF (df : DF) : DF := cols_to_clean.foldl cleanStep df

/-- The cleaning loop of `plot_results.py` `__main__` (lines 125-128). -/
def cleanDFPlot (df : DF) : DF := metricCols.foldl cleanStep df

/-- pandas `df.empty`: true when the table holds no data rows. -/
def dfEmpty (df : DF) : Bool := df.all (fun p => p.2.isEmpty)

/-- The loader `load_data` (app.py lines 37-47): `None` when the file does
not exist, otherwise the parsed table with the metric columns cleaned. -/
def load_data (fileExists : Bool) (raw : DF) : Option DF :=
  if fileExists then some (cleanDF raw) else none

/-- Outcome of the top of the dashboard script: either halted with a
user-visible message, or proceeding to filtering/aggregation with the data. -/
inductive DashStep where
  | halted (msg : String)
  | proceeding (df : DF)
deriving DecidableEq

/-- The guard of app.py lines 52-54: `if df is None or df.empty` halts with
the missing-file message before any filtering or aggregation. -/
def dashboardStart : Option DF → DashStep
  | none => DashStep.halted "Results file not found. Please run your Java simulation first!"
  | some df =>
    if dfEmpty df then
      DashStep.halted "Results file not found. Please run your Java simulation first!"
    else DashStep.proceeding df

/-- Row-oriented view of the cleaned table: one `Row` per simulation run.
Metric fields are `Option ℚ`: `none` is a missing value (pandas NaN after
cleaning). -/
structure Row where
  hostCount : ℤ
  algorithm : String
  bestFitness : Option ℚ
  power : Option ℚ
  load : Option ℚ
  network : Option ℚ
  link : Option ℚ
deriving DecidableEq, Repr

/-- The host-count selection filter (app.py line 66):
`df[df.HostCount.isin(selected_hosts)]`. -/
def filterHosts (rows : List Row) (sel : List ℤ) : List Row :=
  rows.filter (fun r => sel.contains r.hostCount)

/-- The rows of one algorithm, as `filtered_df[filtered_df.Algorithm == a]`. -/
def algGroup (rows : List Row) (a : String) : List Row :=
  rows.filter (fun r => r.algorithm = a)

/-- pandas `Series.mean()` as the groupby aggregation runs it: a single
pass accumulating the sum and count of non-missing values (`skipna=True`),
yielding NaN — here `none` — when the count is zero. -/
def pdMean (vals : List (Option ℚ)) : Option ℚ :=
  let s := vals.foldl
    (fun acc v => match v with
      | some q => (acc.1 + q, acc.2 + 1)
      | none => acc)
    ((0 : ℚ), (0 : ℕ))
  if s.2 = 0 then none else some (s.1 / s.2)

/-- The spec formula for a group mean: the non-missing values listed out,
their sum divided by their count, undefined when there are none. -/
def specMean (vals : List (Option ℚ)) : Option ℚ :=
  let xs := vals.filterMap id
  if xs.length = 0 then none else some (xs.sum / xs.length)

/-- One entry of `avg_stats = filtered_df.groupby("Algorithm")[...].mean()`
(app.py line 73): the mean of metric `m` over the rows of algorithm `a`. -/
def avgStat (rows : List Row) (a : String) (m : Row → Option ℚ) : Option ℚ :=
  pdMean ((algGroup rows a).map m)

/-- The index of `avg_stats`: the algorithms appearing in the filtered
table (each contributing row creates its group). -/
def avgStatsIndex (rows : List Row) : List String :=
  (rows.map (fun r => r.algorithm)).dedup

/-- The distinct (HostCount, Algorithm) group keys of
`df.groupby(["HostCount", "Algorithm"])`. -/
def groupKeys (rows : List Row) : List (ℤ × String) :=
  (rows.map (fun r => (r.hostCount, r.algorithm))).dedup

/-- The rows of one (HostCount, Algorithm) group. -/
def groupRows (rows : List Row) (k : ℤ × String) : List Row :=
  rows.filter (fun r => r.hostCount = k.1 ∧ r.algorithm = k.2)

/-- The grouped mean of metric `m` at key `k`, as computed by
`df.groupby(["HostCount", "Algorithm"])[col].mean()` (app.py line 129,
plot_results.py line 63). -/
def groupMean (rows : List Row) (m : Row → Option ℚ) (k : ℤ × String) : Option ℚ :=
  pdMean ((groupRows rows k).map m)

/-- The spec-side grouped mean, built on the sum/count formula. -/
def specGroupMean (rows : List Row) (m : Row → Option ℚ) (k : ℤ × String) : Option ℚ :=
  specMean ((groupRows rows k).map m)

/-- The grouped means for one metric, one entry per group key, as
`avg_data = df.groupby(["HostCount", "Algorithm"])[col].mean().reset_index()`. -/
def groupedMeans (rows : List Row) (m : Row → Option ℚ) :
    List ((ℤ × String) × Option ℚ) :=
  (groupKeys rows).map (fun k => (k, groupMean rows m k))

/-- The pivot row index: distinct HostCount values in ascending order
(`avg_data.pivot(index="HostCount", ...)`, plot_results.py line 64). -/
def pivotRows (rows : List Row) : List ℤ :=
  ((rows.map (fun r => r.hostCount)).dedup).insertionSort (fun a b => a ≤ b)

/-- The pivot columns: the distinct algorithms appearing in the input. -/
def pivotCols (rows : List Row) : List String :=
  (rows.map (fun r => r.algorithm)).dedup

/-- A pivot cell: the grouped mean at (h, a) when that combination occurs
in the grouped data, NaN — here `none` — when it is absent. -/
def pivotCell (rows : List Row) (m : Row → Option ℚ) (h : ℤ) (a : String) :
    Option ℚ :=
  ((groupedMeans rows m).find? (fun p => p.1 = (h, a))).bind (fun p => p.2)

/-- The value domain of the executive-summary arithmetic: numpy float
semantics at exact inputs. A value is a finite rational, an infinity
(`pos` is its sign) or NaN. Exact rationals stand in for floats; the
special values follow IEEE 754 rules, which app.py lines 87-88 hit when a
baseline mean is zero. -/
inductive FVal where
  | fin (q : ℚ)
  | inf (pos : Bool)
  | nan
deriving DecidableEq, Repr

/-- IEEE-style subtraction on the summary values. -/
def fsub : FVal → FVal → FVal
  | FVal.nan, _ => FVal.nan
  | _, FVal.nan => FVal.nan
  | FVal.fin a, FVal.fin b => FVal.fin (a - b)
  | FVal.inf s, FVal.fin _ => FVal.inf s
  | FVal.fin _, FVal.inf s => FVal.inf (!s)
  | FVal.inf s, FVal.inf t => if s = t then FVal.nan else FVal.inf s

/-- IEEE-style division: a nonzero finite value divided by (positive) zero
is a signed infinity, zero by zero is NaN. -/
def fdiv : FVal → FVal → FVal
  | FVal.nan, _ => FVal.nan
  | _, FVal.nan => FVal.nan
  | FVal.fin a, FVal.fin b =>
    if b = 0 then
      if a = 0 then FVal.nan else FVal.inf (decide (0 < a))
    else FVal.fin (a / b)
  | FVal.inf s, FVal.fin b =>
    if b = 0 then FVal.inf s else FVal.inf (s == decide (0 < b))
  | FVal.fin _, FVal.inf _ => FVal.fin 0
  | FVal.inf _, FVal.inf _ => FVal.nan

/-- IEEE-style multiplication, as used to scale a ratio by 100. -/
def fmul : FVal → FVal → FVal
  | FVal.nan, _ => FVal.nan
  | _, FVal.nan => FVal.nan
  | FVal.fin a, FVal.fin b => FVal.fin (a * b)
  | FVal.inf s, FVal.fin b =>
    if b = 0 then FVal.nan else FVal.inf (s == decide (0 < b))
  | FVal.fin a, FVal.inf s =>
    if a = 0 then FVal.nan else FVal.inf (s == decide (0 < a))
  | FVal.inf s, FVal.inf t => FVal.inf (s == t)

/-- A pandas scalar read out of `avg_stats.loc[...]`: an all-missing group
mean is NaN. -/
def optToF : Option ℚ → FVal
  | none => FVal.nan
  | some q => FVal.fin q

/-- The improvement formula of app.py lines 87-88:
`((comp - hybrid) / comp) * 100`, computed with float semantics and no
zero-denominator guard. -/
def impPct (comp primary : FVal) : FVal :=
  fmul (fdiv (fsub comp primary) comp) (FVal.fin 100)

/-- The values of the three executive-summary stat cards
(app.py lines 90-116). -/
structure Summary where
  hybridFit : FVal
  hybridPwr : FVal
  fitImp : FVal
  pwrImp : FVal
  successRate : ℚ
deriving DecidableEq, Repr

/-- The reliability ratio of app.py lines 108-109:
non-missing BestFitness count over row count of the hybrid rows of the
current selection, times 100. -/
def success_rate (rows : List Row) : ℚ :=
  (((algGroup rows "Hybrid ACO-PSO").countP (fun r => r.bestFitness.isSome) : ℚ) /
    ((algGroup rows "Hybrid ACO-PSO").length : ℚ)) * 100

/-- The executive-summary block of app.py lines 75-116: rendered only when
the hybrid algorithm is in the `avg_stats` index and the ACO baseline is
too; otherwise the whole section produces nothing. -/
def execSummary (rows : List Row) : Option Summary :=
  if "Hybrid ACO-PSO" ∈ avgStatsIndex rows then
    if "ACO" ∈ avgStatsIndex rows then
      some
        { hybridFit := optToF (avgStat rows "Hybrid ACO-PSO" Row.bestFitness)
          hybridPwr := optToF (avgStat rows "Hybrid ACO-PSO" Row.power)
          fitImp := impPct (optToF (avgStat rows "ACO" Row.bestFitness))
            (optToF (avgStat rows "Hybrid ACO-PSO" Row.bestFitness))
          pwrImp := impPct (optToF (avgStat rows "ACO" Row.power))
            (optToF (avgStat rows "Hybrid ACO-PSO" Row.power))
          successRate := success_rate rows }
    else none
  else none

/-- A metric cell already numeric or missing; the cleaning step treats it
as a no-op. -/
def cellIsClean : Cell → Bool
  | Cell.text _ => false
  | _ => true

/-- Row constructor used by the concrete tables below; unused metrics are
left missing. -/
def mkRow (h : ℤ) (a : String) (bf pw : Option ℚ) : Row :=
  { hostCount := h, algorithm := a, bestFitness := bf, power := pw,
    load := none, network := none, link := none }

/-- A group of three ACO runs at host count 10 whose Power column reads
100, FAILED, 120 after cleaning. -/
def exMeanRows : List Row :=
  [mkRow 10 "ACO" none (some 100), mkRow 10 "ACO" none none,
    mkRow 10 "ACO" none (some 120)]

/-- Four hybrid runs whose BestFitness column reads 500, FAILED, 600, 550
after cleaning. -/
def exRelRows : List Row :=
  [mkRow 10 "Hybrid ACO-PSO" (some 500) none,
    mkRow 10 "Hybrid ACO-PSO" none none,
    mkRow 10 "Hybrid ACO-PSO" (some 600) none,
    mkRow 10 "Hybrid ACO-PSO" (some 550) none]

/-- A selection where the ACO baseline mean of BestFitness is zero while
the hybrid mean is 100. -/
def exZeroBaseRows : List Row :=
  [mkRow 10 "ACO" (some 0) (some 0),
    mkRow 10 "Hybrid ACO-PSO" (some 100) (some 50)]

/-- A selection containing only hybrid rows: the ACO baseline is absent. -/
def exNoBaselineRows : List Row :=
  [mkRow 10 "Hybrid ACO-PSO" (some 500) (some 200),
    mkRow 20 "Hybrid ACO-PSO" (some 700) (some 300)]

/-- A selection with both the hybrid and the ACO baseline present. -/
def exSummaryRows : List Row :=
  [mkRow 10 "ACO" (some 200) (some 400),
    mkRow 10 "Hybrid ACO-PSO" (some 150) (some 300)]

/-- ACO at sizes 10 and 20 but PSO only at size 10: the (20, PSO)
combination is absent from the input. -/
def exPivotRows : List Row :=
  [mkRow 10 "ACO" none (some 1), mkRow 20 "ACO" none (some 2),
    mkRow 10 "PSO" none (some 3)]

/-- A raw table whose TimeMs column holds the failure marker. -/
def exTimeDF : DF :=
  [("HostCount", [Cell.num 10]), ("TimeMs", [Cell.text "FAILED"]),
    ("Power", [Cell.text "FAILED", Cell.num 5])]

/-- An already-clean table: its listed metric columns hold only numbers
and missing values. -/
def exCleanDF : DF :=
  [("HostCount", [Cell.num 10, Cell.num 20]),
    ("Algorithm", [Cell.text "ACO", Cell.text "PSO"]),
    ("Power", [Cell.num 5, Cell.na])]

/-- A header-only table: columns present, zero data rows. -/
def exHeaderDF : DF :=
  [("HostCount", []), ("Algorithm", []), ("Power", [])]

/-! ### Helper lemmas -/

lemma foldl_sum_count (vals : List (Option ℚ)) (s : ℚ) (n : ℕ) :
    vals.foldl
      (fun acc v => match v with
        | some q => (acc.1 + q, acc.2 + 1)
        | none => acc)
      (s, n)
    = (s + (vals.filterMap id).sum, n + (vals.filterMap id).length) := by
  induction vals generalizing s n with
  | nil => simp
  | cons v vs ih =>
    cases v with
    | none => simp [List.filterMap_cons, ih]
    | some q =>
      simp only [List.foldl_cons, List.filterMap_cons, id_eq, ih,
        List.sum_cons, List.length_cons, Prod.mk.injEq]
      constructor
      · ring
      · omega

lemma pdMean_eq_specMean (vals : List (Option ℚ)) :
    pdMean vals = specMean vals := by
  simp only [pdMean, specMean, foldl_sum_count, zero_add]

lemma mem_avgStatsIndex (rows : List Row) (a : String) :
    a ∈ avgStatsIndex rows ↔ ∃ r ∈ rows, r.algorithm = a := by
  simp only [avgStatsIndex, List.mem_dedup, List.mem_map]

lemma algGroup_length_pos (rows : List Row) (a : String)
    (h : ∃ r ∈ rows, r.algorithm = a) : (algGroup rows a).length ≠ 0 := by
  obtain ⟨r, hr, hra⟩ := h
  have hmem : r ∈ algGroup rows a := by
    simp [algGroup, List.mem_filter, hr, hra]
  intro h0
  rw [List.length_eq_zero] at h0
  rw [h0] at hmem
  exact List.not_mem_nil r hmem

lemma cleanStep_cons (n : String) (v : List Cell) (rest : DF) (col : String) :
    cleanStep ((n, v) :: rest) col
      = (if n = col then (n, v.map toNumericCell) else (n, v))
        :: cleanStep rest col := by
  simp only [cleanStep, List.map_cons]

lemma getCol_cons (n : String) (v : List Cell) (rest : DF) (name : String) :
    getCol ((n, v) :: rest) name
      = if n = name then some v else getCol rest name := rfl

lemma getCol_cleanStep_ne (df : DF) (col name : String) (h : col ≠ name) :
    getCol (cleanStep df col) name = getCol df name := by
  induction df with
  | nil => rfl
  | cons p rest ih =>
    obtain ⟨n, v⟩ := p
    rw [cleanStep_cons]
    by_cases h1 : n = col
    · subst h1
      rw [if_pos rfl, getCol_cons, getCol_cons, if_neg h, if_neg h, ih]
    · rw [if_neg h1, getCol_cons, getCol_cons]
      by_cases h2 : n = name
      · rw [if_pos h2, if_pos h2]
      · rw [if_neg h2, if_neg h2, ih]

lemma getCol_cleanStep_self (df : DF) (col : String) :
    getCol (cleanStep df col) col
      = (getCol df col).map (List.map toNumericCell) := by
  induction df with
  | nil => rfl
  | cons p rest ih =>
    obtain ⟨n, v⟩ := p
    rw [cleanStep_cons]
    by_cases h1 : n = col
    · subst h1
      rw [if_pos rfl, getCol_cons, getCol_cons, if_pos rfl, if_pos rfl]
      rfl
    · rw [if_neg h1, getCol_cons, getCol_cons, if_neg h1, if_neg h1, ih]

lemma getCol_cleanFold_notmem (cols : List String) (df : DF) (name : String)
    (h : name ∉ cols) :
    getCol (cols.foldl cleanStep df) name = getCol df name := by
  induction cols generalizing df with
  | nil => rfl
  | cons c cs ih =>
    simp only [List.mem_cons, not_or] at h
    rw [List.foldl_cons, ih (cleanStep df c) h.2,
      getCol_cleanStep_ne df c name (fun hc => h.1 hc.symm)]

lemma getCol_cleanFold_mem (cols : List String) (df : DF) (col : String)
    (hmem : col ∈ cols) (hnd : cols.Nodup) :
    getCol (cols.foldl cleanStep df) col
      = (getCol df col).map (List.map toNumericCell) := by
  induction cols generalizing df with
  | nil => exact absurd hmem (List.not_mem_nil col)
  | cons c cs ih =>
    rw [List.nodup_cons] at hnd
    rw [List.foldl_cons]
    rcases List.mem_cons.mp hmem with rfl | hcs
    · rw [getCol_cleanFold_notmem cs (cleanStep df col) col hnd.1,
        getCol_cleanStep_self]
    · have hne : c ≠ col := fun he => hnd.1 (he ▸ hcs)
      rw [ih (cleanStep df c) hcs hnd.2, getCol_cleanStep_ne df c col hne]

lemma cleanStep_fst (df : DF) (col : String) :
    (cleanStep df col).map Prod.fst = df.map Prod.fst := by
  induction df with
  | nil => rfl
  | cons p rest ih =>
    obtain ⟨n, v⟩ := p
    rw [cleanStep_cons]
    by_cases h1 : n = col
    · rw [if_pos h1, List.map_cons, List.map_cons, ih]
    · rw [if_neg h1, List.map_cons, List.map_cons, ih]

lemma cleanFold_fst (cols : List String) (df : DF) :
    (cols.foldl cleanStep df).map Prod.fst = df.map Prod.fst := by
  induction cols generalizing df with
  | nil => rfl
  | cons c cs ih => rw [List.foldl_cons, ih, cleanStep_fst]

lemma toNumericCell_clean (c : Cell) (h : cellIsClean c = true) :
    toNumericCell c = c := by
  cases c with
  | num q => rfl
  | na => rfl
  | text s => simp [cellIsClean] at h

lemma map_toNumericCell_clean (v : List Cell)
    (h : ∀ c ∈ v, cellIsClean c = true) : v.map toNumericCell = v := by
  induction v with
  | nil => rfl
  | cons c cs ih =>
    rw [List.map_cons, toNumericCell_clean c (h c (List.mem_cons_self c cs)),
      ih (fun x hx => h x (List.mem_cons_of_mem c hx))]

lemma cleanStep_clean (df : DF) (col : String)
    (h : ∀ p ∈ df, p.1 = col → ∀ c ∈ p.2, cellIsClean c = true) :
    cleanStep df col = df := by
  induction df with
  | nil => rfl
  | cons p rest ih =>
    obtain ⟨n, v⟩ := p
    have hrest : cleanStep rest col = rest :=
      ih (fun q hq => h q (List.mem_cons_of_mem (n, v) hq))
    rw [cleanStep_cons, hrest]
    by_cases h1 : n = col
    · have hmap : v.map toNumericCell = v :=
        map_toNumericCell_clean v
          (h (n, v) (List.mem_cons_self (n, v) rest) h1)
      rw [if_pos h1, hmap]
    · rw [if_neg h1]

lemma foldl_cleanStep_id (cols : List String) (df : DF)
    (h : ∀ col ∈ cols, cleanStep df col = df) :
    cols.foldl cleanStep df = df := by
  induction cols with
  | nil => rfl
  | cons c cs ih =>
    rw [List.foldl_cons, h c (List.mem_cons_self c cs)]
    exact ih (fun col hcol => h col (List.mem_cons_of_mem c hcol))

lemma isEmpty_map {α β : Type} (f : α → β) (v : List α) :
    (v.map f).isEmpty = v.isEmpty := by
  cases v <;> rfl

lemma dfEmpty_cleanStep (df : DF) (col : String) :
    dfEmpty (cleanStep df col) = dfEmpty df := by
  induction df with
  | nil => rfl
  | cons p rest ih =>
    obtain ⟨n, v⟩ := p
    have ih2 : (cleanStep rest col).all (fun p => p.2.isEmpty)
        = rest.all (fun p => p.2.isEmpty) := ih
    by_cases h1 : n = col <;>
      simp [dfEmpty, cleanStep_cons, List.all_cons, h1, isEmpty_map, ih2]

lemma dfEmpty_cleanFold (cols : List String) (df : DF) :
    dfEmpty (cols.foldl cleanStep df) = dfEmpty df := by
  induction cols generalizing df with
  | nil => rfl
  | cons c cs ih => rw [List.foldl_cons, ih, dfEmpty_cleanStep]




lemma impPct_zero_base (hq : ℚ) (hne : hq ≠ 0) :
    impPct (FVal.fin 0) (FVal.fin hq) = FVal.inf (decide (hq < 0)) := by
  have h2 : (0 : ℚ) - hq ≠ 0 := sub_ne_zero.mpr (Ne.symm hne)
  have h100 : (100 : ℚ) ≠ 0 := by norm_num
  have hd : decide ((0 : ℚ) < 100) = true := by norm_num
  simp [impPct, fsub, fdiv, fmul, h2, h100, hd, hne, zero_sub, neg_pos,
    beq_true]

lemma avgStat_aco_exZeroBase :
    avgStat exZeroBaseRows "ACO" Row.bestFitness = some 0 := by
  norm_num [avgStat, pdMean, algGroup, exZeroBaseRows, mkRow,
    (show ("Hybrid ACO-PSO" : String) ≠ "ACO" by decide)]

lemma avgStat_hyb_exZeroBase :
    avgStat exZeroBaseRows "Hybrid ACO-PSO" Row.bestFitness = some 100 := by
  norm_num [avgStat, pdMean, algGroup, exZeroBaseRows, mkRow,
    (show ("ACO" : String) ≠ "Hybrid ACO-PSO" by decide)]

/-! ### Claim theorems -/

/-- Claim C1, counterexample: in the selection `exZeroBaseRows` the ACO
baseline mean of BestFitness is 0, yet the executive summary computes the
improvement percentage anyway and produces negative infinity — refuting
that the division is never performed and that infinity or NaN is never
produced. -/
theorem C1_counterexample :
    (execSummary exZeroBaseRows).map Summary.fitImp
      = some (FVal.inf false) ∧ FVal.inf false ≠ FVal.nan := by
  constructor
  · have hhyb : "Hybrid ACO-PSO" ∈ avgStatsIndex exZeroBaseRows := by decide
    have haco : "ACO" ∈ avgStatsIndex exZeroBaseRows := by decide
    unfold execSummary
    rw [if_pos hhyb, if_pos haco, avgStat_aco_exZeroBase,
      avgStat_hyb_exZeroBase]
    simp only [Option.map_some', optToF]
    rw [impPct_zero_base 100 (by norm_num)]
    norm_num
  · decide

/-- Claim C1, amended: when the baseline mean of a comparison metric is
zero and the primary mean is a nonzero value, the improvement percentage
is computed anyway under float semantics and evaluates to a signed
infinity, which reaches the displayed figure; there is no
division-by-zero guard. -/
theorem C1_zero_baseline_divides (rows : List Row) (hq : ℚ)
    (hhyb : "Hybrid ACO-PSO" ∈ avgStatsIndex rows)
    (haco : "ACO" ∈ avgStatsIndex rows)
    (hbase : avgStat rows "ACO" Row.bestFitness = some 0)
    (hprim : avgStat rows "Hybrid ACO-PSO" Row.bestFitness = some hq)
    (hne : hq ≠ 0) :
    (execSummary rows).map Summary.fitImp
      = some (FVal.inf (decide (hq < 0))) := by
  unfold execSummary
  rw [if_pos hhyb, if_pos haco]
  simp only [Option.map_some']
  rw [hbase, hprim]
  simp only [optToF]
  exact congrArg some (impPct_zero_base hq hne)

/-- Claim C1, witness: the amended statement at the concrete selection
`exZeroBaseRows`. -/
theorem C1_witness :
    (execSummary exZeroBaseRows).map Summary.fitImp
      = some (FVal.inf (decide ((100 : ℚ) < 0))) :=
  C1_zero_baseline_divides exZeroBaseRows 100 (by decide) (by decide)
    avgStat_aco_exZeroBase avgStat_hyb_exZeroBase (by norm_num)

/-- Claim C2, counterexample: a FAILED cell in the TimeMs column survives
both scripts' cleaning loops unchanged — TimeMs is in neither cleaning
list — refuting that every recognized metric column has failure markers
coerced to missing. -/
theorem C2_counterexample :
    getCol (cleanDF exTimeDF) "TimeMs" = some [Cell.text "FAILED"] ∧
    getCol (cleanDFPlot exTimeDF) "TimeMs" = some [Cell.text "FAILED"] ∧
    Cell.text "FAILED" ≠ Cell.na := by
  refine ⟨by decide, by decide, by decide⟩

/-- Claim C2, amended: cleaning coerces exactly the columns BestFitness,
Power, Load, Network and Link — each such column present in the input has
every cell passed through `to_numeric`, so a failure marker becomes
missing — while TimeMs is in neither script's cleaning list, and the two
scripts clean the same columns. -/
theorem C2_cleaned_columns :
    (∀ df : DF, ∀ col, col ∈ cols_to_clean →
      getCol (cleanDF df) col = (getCol df col).map (List.map toNumericCell)) ∧
    toNumericCell (Cell.text "FAILED") = Cell.na ∧
    (∀ df : DF, cleanDFPlot df = cleanDF df) := by
  refine ⟨fun df col hcol => ?_, by decide, fun df => rfl⟩
  exact getCol_cleanFold_mem cols_to_clean df col hcol (by decide)

/-- Claim C2, witness: the amended statement applied to the Power column
of the concrete table `exTimeDF`. -/
theorem C2_witness :
    getCol (cleanDF exTimeDF) "Power"
      = (getCol exTimeDF "Power").map (List.map toNumericCell) :=
  C2_cleaned_columns.1 exTimeDF "Power" (by decide)

/-- Claim C3: for every (scenario_size, algorithm) group and metric, the
pandas groupby mean — a sum/count accumulation over non-missing values —
equals the spec formula: the sum of the non-missing values divided by
their count, undefined (not zero) when there are none; and for the
concrete group with Power values 100, FAILED, 120 the mean is 110. -/
theorem C3_group_mean :
    (∀ rows : List Row, ∀ m : Row → Option ℚ, ∀ k : ℤ × String,
      groupMean rows m k = specGroupMean rows m k) ∧
    groupMean exMeanRows Row.power ((10 : ℤ), "ACO") = some 110 := by
  refine ⟨fun rows m k => ?_,
    by norm_num [groupMean, pdMean, groupRows, exMeanRows, mkRow]⟩
  unfold groupMean specGroupMean
  exact pdMean_eq_specMean _

/-- Claim C4: the reliability ratio equals the number of
primary-algorithm rows with non-missing fitness divided by the total
number of primary-algorithm rows, times 100; for four hybrid rows with
fitness 500, FAILED, 600, 550 it equals 75. -/
theorem C4_reliability :
    (∀ rows : List Row,
      success_rate rows
        = ((((algGroup rows "Hybrid ACO-PSO").filter
              (fun r => r.bestFitness.isSome)).length : ℚ)
            / ((algGroup rows "Hybrid ACO-PSO").length : ℚ)) * 100) ∧
    success_rate exRelRows = 75 := by
  constructor
  · intro rows
    rw [success_rate, List.countP_eq_length_filter]
  · norm_num [success_rate, algGroup, exRelRows, mkRow]

/-- Claim C5: for every input and metric, the pivot's row index is the
distinct scenario sizes in ascending order with no duplicates, a row is
present exactly when some input row has that scenario size, a column is
present exactly when some input row has that algorithm, and every
(scenario_size, algorithm) combination absent from the input yields an
undefined cell, never zero. -/
theorem C5_pivot :
    ∀ rows : List Row, ∀ m : Row → Option ℚ,
      List.Sorted (fun a b : ℤ => a ≤ b) (pivotRows rows) ∧
      (pivotRows rows).Nodup ∧
      (∀ h : ℤ, h ∈ pivotRows rows ↔ ∃ r ∈ rows, r.hostCount = h) ∧
      (∀ a : String, a ∈ pivotCols rows ↔ ∃ r ∈ rows, r.algorithm = a) ∧
      (∀ h a, (∀ r ∈ rows, ¬(r.hostCount = h ∧ r.algorithm = a)) →
        pivotCell rows m h a = none) := by
  intro rows m
  refine ⟨List.sorted_insertionSort _ _,
    ((List.perm_insertionSort _ _).symm).nodup (List.nodup_dedup _),
    ?_, ?_, ?_⟩
  · intro h
    simp [pivotRows, List.mem_dedup, List.mem_map]
  · intro a
    simp [pivotCols, List.mem_dedup, List.mem_map]
  · intro h a habs
    have hfind : (groupedMeans rows m).find? (fun p => p.1 = (h, a))
        = none := by
      rw [List.find?_eq_none]
      intro x hx
      simp only [groupedMeans] at hx
      obtain ⟨k, hk, rfl⟩ := List.mem_map.mp hx
      simp only [decide_eq_true_eq]
      intro heq
      rw [groupKeys, List.mem_dedup, List.mem_map] at hk
      obtain ⟨r, hr, hrk⟩ := hk
      apply habs r hr
      have hpair : (r.hostCount, r.algorithm) = (h, a) := by
        rw [hrk]; exact heq
      exact ⟨congrArg Prod.fst hpair, congrArg Prod.snd hpair⟩
    simp only [pivotCell, hfind]
    rfl

/-- Claim C5, witness: in `exPivotRows` the (20, PSO) combination is
absent, its pivot cell is undefined, and the row for scenario size 20 is
still present. -/
theorem C5_witness :
    pivotCell exPivotRows Row.power 20 "PSO" = none ∧
    (20 : ℤ) ∈ pivotRows exPivotRows := by
  constructor
  · exact (C5_pivot exPivotRows Row.power).2.2.2.2 20 "PSO" (by decide)
  · exact ((C5_pivot exPivotRows Row.power).2.2.1 20).mpr
      ⟨mkRow 20 "ACO" none (some 2), by decide, by decide⟩

/-- Claim C6: cleaning is idempotent on already-clean input — for every
table whose listed metric columns hold only numeric or missing cells,
the cleaning loop returns the table unchanged. -/
theorem C6_idempotent_clean :
    ∀ df : DF,
      (∀ p ∈ df, p.1 ∈ cols_to_clean → ∀ c ∈ p.2, cellIsClean c = true) →
      cleanDF df = df := by
  intro df h
  unfold cleanDF
  apply foldl_cleanStep_id
  intro col hcol
  apply cleanStep_clean
  intro p hp hpcol
  exact h p hp (by rw [hpcol]; exact hcol)

/-- Claim C6, witness: the idempotence statement at the concrete
already-clean table `exCleanDF`. -/
theorem C6_witness : cleanDF exCleanDF = exCleanDF :=
  C6_idempotent_clean exCleanDF (by decide)

/-- Claim C7: cleaning only touches the listed metric columns — the
column-name list is unchanged, and every column whose name is not in the
cleaning list keeps its exact cells; a listed column absent from the
input is skipped (the column set never grows), and no error is possible
since the cleaning function is total. -/
theorem C7_frame :
    ∀ df : DF,
      (cleanDF df).map Prod.fst = df.map Prod.fst ∧
      ∀ name, name ∉ cols_to_clean →
        getCol (cleanDF df) name = getCol df name := by
  intro df
  exact ⟨cleanFold_fst cols_to_clean df,
    fun name hname => getCol_cleanFold_notmem cols_to_clean df name hname⟩

/-- Claim C7, witness: the frame condition at the concrete table
`exTimeDF` and the unlisted column HostCount. -/
theorem C7_witness :
    getCol (cleanDF exTimeDF) "HostCount" = getCol exTimeDF "HostCount" ∧
    (cleanDF exTimeDF).map Prod.fst = exTimeDF.map Prod.fst :=
  ⟨(C7_frame exTimeDF).2 "HostCount" (by decide), (C7_frame exTimeDF).1⟩

/-- Claim C8: whenever the ACO baseline contributes no rows to the
current selection, the executive summary produces nothing at all — no
improvement percentages, no reliability ratio, and no error. -/
theorem C8_no_baseline :
    ∀ rows : List Row, "ACO" ∉ avgStatsIndex rows →
      execSummary rows = none := by
  intro rows h
  unfold execSummary
  by_cases hh : "Hybrid ACO-PSO" ∈ avgStatsIndex rows
  · rw [if_pos hh, if_neg h]
  · rw [if_neg hh]

/-- Claim C8, witness: the summary is omitted for the concrete hybrid-only
selection `exNoBaselineRows`. -/
theorem C8_witness : execSummary exNoBaselineRows = none :=
  C8_no_baseline exNoBaselineRows (by decide)

/-- Claim C9: the reliability-ratio division is safe — whenever the
hybrid algorithm appears in the groupby index of the filtered table (the
guard of app.py line 75), the filtered table holds at least one hybrid
row, so the denominator of `success_rate` is nonzero. -/
theorem C9_reliability_denominator :
    ∀ rows : List Row, "Hybrid ACO-PSO" ∈ avgStatsIndex rows →
      (algGroup rows "Hybrid ACO-PSO").length ≠ 0 := by
  intro rows h
  exact algGroup_length_pos rows _ ((mem_avgStatsIndex rows _).mp h)

/-- Claim C9, witness: the nonzero denominator at the concrete selection
`exSummaryRows`. -/
theorem C9_witness : (algGroup exSummaryRows "Hybrid ACO-PSO").length ≠ 0 :=
  C9_reliability_denominator exSummaryRows (by decide)

/-- Claim C10: a source file that exists but parses to a table with zero
data rows is treated exactly like a missing file — the
`df is None or df.empty` guard halts the dashboard with the same
missing-file message in both cases, before any filtering or
aggregation. -/
theorem C10_empty_like_missing :
    ∀ raw : DF, dfEmpty raw = true →
      dashboardStart (load_data true raw)
        = DashStep.halted
            "Results file not found. Please run your Java simulation first!" ∧
      dashboardStart (load_data false raw)
        = DashStep.halted
            "Results file not found. Please run your Java simulation first!" := by
  intro raw h
  have hc : dfEmpty (cleanDF raw) = true := by
    rw [cleanDF, dfEmpty_cleanFold]; exact h
  constructor
  · simp [load_data, dashboardStart, hc]
  · rfl

/-- Claim C10, witness: both paths halt with the same message at the
concrete header-only table `exHeaderDF`. -/
theorem C10_witness :
    dashboardStart (load_data true exHeaderDF)
      = DashStep.halted
          "Results file not found. Please run your Java simulation first!" :=
  (C10_empty_like_missing exHeaderDF (by decide)).1
